import Mathlib

/-!
Verification of the Tuya TS0601 vibration/door-sensor quirk
(`zhaquirks/tuya/ts601_door.py`).

The module is a declarative adapter: three custom cluster constructors seed
attribute caches with fixed defaults, a static table maps Tuya data-point ids
to (endpoint, cluster, attribute, converter) targets, and a replacement
topology splits the single physical endpoint into three synthetic endpoints.

The cluster/endpoint machinery of the host framework (attribute cache storage,
`update_attribute`, the generic `_dp_2_attr_update` dispatcher of
`TuyaNewManufCluster`) lives outside this module; where it is needed it is
modelled from the specification, as marked on each such definition.  The
table, the converters, the constructor bodies and the topology are translated
directly from the module source.
-/

/-- Attribute values stored in a cluster's attribute cache.  Integer-valued
attributes carry an `Int`; members of host-framework enumerations
(`PowerConfiguration.BatterySize`, `Basic.PowerSource`, `ZoneType`, and the
`ZONE_STATE` constant of `zhaquirks.const`) are kept symbolic. -/
inductive AttrValue where
  | int (v : Int)
  | batterySizeAAA
  | powerSourceBattery
  | zoneTypeContactSwitch
  | zoneTypeVibrationMovementSensor
  | zoneStateDefault
deriving DecidableEq

/-- A cluster's attribute cache: a partial map from attribute name to value. -/
abbrev AttrCache := String → Option AttrValue

/-- The empty attribute cache. -/
def emptyCache : AttrCache := fun _ => none

/-- Modelled from the spec: `update_attribute` of the host framework's local
cluster "seeds a cluster's attribute cache" — it writes one (name, value)
pair into the cache, leaving every other attribute untouched. -/
def cacheSet (c : AttrCache) (attr : String) (v : AttrValue) : AttrCache :=
  fun a => if a = attr then some v else c a

/- Data-point and endpoint identifiers, from the module source. -/

def DOOR_HANDLE_DP_ID : Nat := 1

def BATTERY_STATE_DP_ID : Nat := 3

def VIBRATION_DP_ID : Nat := 10

def DP_HANDLER_EP_ID : Nat := 1

def DOOR_HANDLE_EP_ID : Nat := 2

def VIBRATION_EP_ID : Nat := 3

/-- Modelled from the spec: `ZoneStatus.Alarm_1` of the host framework is "a
single alarm-bit mask" and the end-to-end property fixes it as bit 0
(raw value 1 yields stored value 1). -/
def Alarm_1 : Int := 1

/-- Attribute cache produced by `CustomBasicCluster.__init__`: sets
`power_source` to `Basic.PowerSource.Battery`. -/
def CustomBasicCluster_init : AttrCache :=
  cacheSet emptyCache "power_source" AttrValue.powerSourceBattery

/-- Attribute cache produced by
`CustomTuyaPowerConfigurationCluster.__init__`: sets `battery_size` to AAA,
`battery_quantity` to 2 and `battery_percentage_remaining` to `100 * 2`. -/
def CustomTuyaPowerConfigurationCluster_init : AttrCache :=
  cacheSet (cacheSet (cacheSet emptyCache
    "battery_size" AttrValue.batterySizeAAA)
    "battery_quantity" (AttrValue.int 2))
    "battery_percentage_remaining" (AttrValue.int (100 * 2))

/-- Attribute cache produced by `CustomTuyaContactSwitchCluster.__init__`:
sets `zone_state` to `ZONE_STATE`, `zone_type` to `ZoneType.Contact_Switch`
and `zone_status` to `0x0000`. -/
def CustomTuyaContactSwitchCluster_init : AttrCache :=
  cacheSet (cacheSet (cacheSet emptyCache
    "zone_state" AttrValue.zoneStateDefault)
    "zone_type" AttrValue.zoneTypeContactSwitch)
    "zone_status" (AttrValue.int 0)

/-- Attribute cache produced by `CustomTuyaVibrationCluster.__init__`: sets
`zone_state` to `ZONE_STATE`, `zone_type` to
`ZoneType.Vibration_Movement_Sensor` and `zone_status` to `0x0000`. -/
def CustomTuyaVibrationCluster_init : AttrCache :=
  cacheSet (cacheSet (cacheSet emptyCache
    "zone_state" AttrValue.zoneStateDefault)
    "zone_type" AttrValue.zoneTypeVibrationMovementSensor)
    "zone_status" (AttrValue.int 0)

/-- The device's synthesized cluster instances, addressed the way the
dispatcher addresses them: by endpoint id and by the cluster type's
`ep_attribute` name (`"basic"`, `"power"`, `"ias_zone"`, ...). -/
abbrev DeviceState := Nat → String → Option AttrCache

/-- The state of the three synthesized endpoints right after construction,
per the `replacement` of `TS0601Door`: endpoint 1 carries the custom Basic,
PowerConfiguration and Tuya-processor clusters, endpoint 2 the contact-switch
IasZone, endpoint 3 the vibration IasZone (Groups/Scenes are plain standard
clusters with no seeded attributes). -/
def initialState : DeviceState := fun ep epa =>
  if ep = DP_HANDLER_EP_ID then
    if epa = "basic" then some CustomBasicCluster_init
    else if epa = "power" then some CustomTuyaPowerConfigurationCluster_init
    else if epa = "tuya_manufacturer" then some emptyCache
    else if epa = "groups" then some emptyCache
    else if epa = "scenes" then some emptyCache
    else none
  else if ep = DOOR_HANDLE_EP_ID then
    if epa = "basic" then some CustomBasicCluster_init
    else if epa = "ias_zone" then some CustomTuyaContactSwitchCluster_init
    else if epa = "groups" then some emptyCache
    else if epa = "scenes" then some emptyCache
    else none
  else if ep = VIBRATION_EP_ID then
    if epa = "basic" then some CustomBasicCluster_init
    else if epa = "ias_zone" then some CustomTuyaVibrationCluster_init
    else if epa = "groups" then some emptyCache
    else if epa = "scenes" then some emptyCache
    else none
  else none

/-- Convenience accessor: the cached value of one attribute of the cluster at
(endpoint, ep_attribute), if that cluster exists. -/
def attrAt (device : DeviceState) (ep : Nat) (epa attr : String) :
    Option AttrValue :=
  match device ep epa with
  | none => none
  | some c => c attr

/-- A parsed Tuya data-point report: numbered slot plus raw value. -/
structure DataPointReport where
  id : Nat
  raw_value : Int

/-- One entry of the data-point table: target endpoint, target cluster (by its
`ep_attribute` name), target attribute name, and the value converter. -/
structure DPToAttributeMapping where
  endpoint_id : Nat
  ep_attribute : String
  attribute_name : String
  converter : Int → Int

/-- The static `dp_to_attribute` table of `CustomTuyaDPProcessor`, translated
entry for entry from the module source.  `Int.land` is the two's-complement
bitwise AND, matching Python's `&` on unbounded integers. -/
def dp_to_attribute (dp : Nat) : Option DPToAttributeMapping :=
  if dp = DOOR_HANDLE_DP_ID then
    some ⟨DOOR_HANDLE_EP_ID, "ias_zone", "zone_status",
      fun x => Int.land Alarm_1 x⟩
  else if dp = VIBRATION_DP_ID then
    some ⟨VIBRATION_EP_ID, "ias_zone", "zone_status",
      fun x => Int.land Alarm_1 x⟩
  else if dp = BATTERY_STATE_DP_ID then
    some ⟨DP_HANDLER_EP_ID, "power", "battery_percentage_remaining",
      fun x => 2 * x⟩
  else none

/-- The static `data_point_handlers` table of `CustomTuyaDPProcessor`: the
three known data points are all routed to `_dp_2_attr_update`. -/
def data_point_handlers (dp : Nat) : Option String :=
  if dp = DOOR_HANDLE_DP_ID then some "_dp_2_attr_update"
  else if dp = VIBRATION_DP_ID then some "_dp_2_attr_update"
  else if dp = BATTERY_STATE_DP_ID then some "_dp_2_attr_update"
  else none

/-- Modelled from the spec: the generic `_dp_2_attr_update` handler of the
host framework's `TuyaNewManufCluster` — "look up its id in the static table;
if found, apply the associated converter to raw_value, then write the
resulting value into the named attribute of the cluster instance located at
the target endpoint; if not found, the report is ignored". -/
def dp_2_attr_update (device : DeviceState) (report : DataPointReport) :
    DeviceState :=
  match dp_to_attribute report.id with
  | none => device
  | some m =>
    match device m.endpoint_id m.ep_attribute with
    | none => device
    | some c =>
      fun ep epa =>
        if ep = m.endpoint_id ∧ epa = m.ep_attribute then
          some (cacheSet c m.attribute_name
            (AttrValue.int (m.converter report.raw_value)))
        else device ep epa

/-- Modelled from the spec: dispatch of an incoming report — the handler name
is looked up in `data_point_handlers`; an id with no handler is silently
ignored, the three known ids are routed to `_dp_2_attr_update`. -/
def handle_report (device : DeviceState) (report : DataPointReport) :
    DeviceState :=
  match data_point_handlers report.id with
  | none => device
  | some _ => dp_2_attr_update device report

/- Replacement topology, from `TS0601Door.replacement`.  Cluster classes are
identified by their ZCL cluster ids (values of the host framework's
`cluster_id` constants): Basic 0x0000, PowerConfiguration 0x0001, Groups
0x0004, Scenes 0x0005, Time 0x000A, Ota 0x0019, IasZone 0x0500, and the Tuya
manufacturer cluster 0xEF00. -/

def Basic_cluster_id : Nat := 0x0000

def PowerConfiguration_cluster_id : Nat := 0x0001

def Groups_cluster_id : Nat := 0x0004

def Scenes_cluster_id : Nat := 0x0005

def Time_cluster_id : Nat := 0x000A

def Ota_cluster_id : Nat := 0x0019

def IasZone_cluster_id : Nat := 0x0500

def TUYA_CLUSTER_ID : Nat := 0xEF00

/-- One synthesized endpoint of the `replacement` topology. -/
structure EndpointReplacement where
  endpoint_id : Nat
  profile_id : Nat
  device_type : Nat
  input_clusters : List Nat
  output_clusters : List Nat
deriving DecidableEq

/-- Endpoint 1 of the replacement: profile `zha.PROFILE_ID` (0x0104), device
type `SMART_PLUG` (0x0051), inputs CustomBasicCluster, Groups, Scenes,
CustomTuyaPowerConfigurationCluster, CustomTuyaDPProcessor; outputs Time,
Ota. -/
def replacement_endpoint1 : EndpointReplacement :=
  ⟨DP_HANDLER_EP_ID, 0x0104, 0x0051,
    [Basic_cluster_id, Groups_cluster_id, Scenes_cluster_id,
      PowerConfiguration_cluster_id, TUYA_CLUSTER_ID],
    [Time_cluster_id, Ota_cluster_id]⟩

/-- Endpoint 2 of the replacement: profile 0x0104, device type `IAS_ZONE`
(0x0402), inputs CustomBasicCluster, Groups, Scenes,
CustomTuyaContactSwitchCluster; outputs Time. -/
def replacement_endpoint2 : EndpointReplacement :=
  ⟨DOOR_HANDLE_EP_ID, 0x0104, 0x0402,
    [Basic_cluster_id, Groups_cluster_id, Scenes_cluster_id,
      IasZone_cluster_id],
    [Time_cluster_id]⟩

/-- Endpoint 3 of the replacement: profile 0x0104, device type `IAS_ZONE`
(0x0402), inputs CustomBasicCluster, Groups, Scenes,
CustomTuyaVibrationCluster; outputs Time. -/
def replacement_endpoint3 : EndpointReplacement :=
  ⟨VIBRATION_EP_ID, 0x0104, 0x0402,
    [Basic_cluster_id, Groups_cluster_id, Scenes_cluster_id,
      IasZone_cluster_id],
    [Time_cluster_id]⟩

/-- The input-cluster instances a synthesized endpoint carries.  The host
framework instantiates one cluster object per (endpoint, cluster type), so an
instance is identified by that pair; instances on different endpoints are
distinct objects even when their cluster type coincides. -/
def instancesOf (e : EndpointReplacement) : List (Nat × Nat) :=
  e.input_clusters.map (fun c => (e.endpoint_id, c))

/- Arithmetic helpers: `Int.land` with the single-bit mask 1 is reduction
modulo 2, exactly as Python's `1 & x` on unbounded signed integers. -/

/-- Bitwise AND of a natural number with 1 extracts its low bit. -/
theorem nat_land_one (n : Nat) : Nat.land 1 n = n % 2 := by
  apply Nat.eq_of_testBit_eq
  intro i
  rw [show Nat.land 1 n = 1 &&& n from rfl, Nat.testBit_land]
  rcases Nat.mod_two_eq_zero_or_one n with h | h <;> rw [h] <;>
    cases i with
    | zero => simp [Nat.testBit_zero, h]
    | succ i => simp [Nat.testBit_add_one]

/-- Bitwise difference of 1 and a natural number flips its low bit. -/
theorem nat_ldiff_one (n : Nat) : Nat.ldiff 1 n = 1 - n % 2 := by
  apply Nat.eq_of_testBit_eq
  intro i
  rw [Nat.testBit_ldiff]
  rcases Nat.mod_two_eq_zero_or_one n with h | h <;> rw [h] <;>
    cases i with
    | zero => simp [Nat.testBit_zero, h]
    | succ i => simp [Nat.testBit_add_one]

/-- Two's-complement AND with the mask 1 equals the nonnegative remainder
modulo 2, for every integer. -/
theorem int_land_one (x : Int) : Int.land 1 x = x % 2 := by
  cases x with
  | ofNat n =>
      show Int.ofNat (Nat.land 1 n) = Int.ofNat n % 2
      rw [nat_land_one]
      rfl
  | negSucc n =>
      show Int.ofNat (Nat.ldiff 1 n) = Int.negSucc n % 2
      rw [nat_ldiff_one]
      show _ = Int.subNatNat (Int.natAbs 2) (n % Int.natAbs 2).succ
      rw [Int.subNatNat_eq_coe]
      rcases Nat.mod_two_eq_zero_or_one n with h | h <;>
        rw [show Int.natAbs 2 = 2 from rfl, h] <;> decide

/- Dispatch helpers shared by the claim theorems below. -/

/-- Every id present in `dp_to_attribute` is routed to the
`_dp_2_attr_update` handler by `data_point_handlers`. -/
theorem handlers_of_mapping (dp : Nat) (m : DPToAttributeMapping)
    (hm : dp_to_attribute dp = some m) :
    data_point_handlers dp = some "_dp_2_attr_update" := by
  unfold dp_to_attribute at hm
  unfold data_point_handlers
  by_cases h1 : dp = DOOR_HANDLE_DP_ID
  · simp [h1]
  · by_cases h2 : dp = VIBRATION_DP_ID
    · simp [h1, h2]
    · by_cases h3 : dp = BATTERY_STATE_DP_ID
      · simp [h1, h2, h3]
      · simp [h1, h2, h3] at hm

/-- Dispatching a report whose id is in the table replaces exactly the target
cluster's cache, writing the converted value under the target attribute
name. -/
theorem handle_report_found (device : DeviceState) (report : DataPointReport)
    (m : DPToAttributeMapping) (c : AttrCache)
    (hm : dp_to_attribute report.id = some m)
    (hc : device m.endpoint_id m.ep_attribute = some c) :
    handle_report device report = fun ep epa =>
      if ep = m.endpoint_id ∧ epa = m.ep_attribute then
        some (cacheSet c m.attribute_name
          (AttrValue.int (m.converter report.raw_value)))
      else device ep epa := by
  have hh := handlers_of_mapping report.id m hm
  unfold handle_report dp_2_attr_update
  simp only [hh, hm, hc]

/-- Reading the target cluster after a dispatched report: the target
attribute holds the converted value, every other attribute of that cluster is
unchanged. -/
theorem attrAt_handle_target (device : DeviceState)
    (report : DataPointReport) (m : DPToAttributeMapping) (c : AttrCache)
    (hm : dp_to_attribute report.id = some m)
    (hc : device m.endpoint_id m.ep_attribute = some c) (attr : String) :
    attrAt (handle_report device report) m.endpoint_id m.ep_attribute attr
      = if attr = m.attribute_name then
          some (AttrValue.int (m.converter report.raw_value))
        else c attr := by
  unfold attrAt
  rw [handle_report_found device report m c hm hc]
  simp [cacheSet]

/-- Reading any non-target cluster after a dispatched report yields exactly
what it held before. -/
theorem attrAt_handle_frame (device : DeviceState)
    (report : DataPointReport) (m : DPToAttributeMapping) (c : AttrCache)
    (hm : dp_to_attribute report.id = some m)
    (hc : device m.endpoint_id m.ep_attribute = some c)
    (ep : Nat) (epa attr : String)
    (hne : ¬(ep = m.endpoint_id ∧ epa = m.ep_attribute)) :
    attrAt (handle_report device report) ep epa attr
      = attrAt device ep epa attr := by
  unfold attrAt
  rw [handle_report_found device report m c hm hc]
  simp only [hne, if_false]

/-- C1: for every DataPointReport whose id is present in the static
data-point table, dispatch applies the table's converter to the report's raw
value, writes the result into the mapping's named attribute of the cluster
at the mapping's target endpoint, and writes nothing else: every other
attribute of the target cluster and every attribute of every other cluster
is unchanged. -/
theorem C1_dispatch_writes_exactly_target (device : DeviceState)
    (report : DataPointReport) (m : DPToAttributeMapping) (c : AttrCache)
    (hm : dp_to_attribute report.id = some m)
    (hc : device m.endpoint_id m.ep_attribute = some c) :
    attrAt (handle_report device report) m.endpoint_id m.ep_attribute
        m.attribute_name
      = some (AttrValue.int (m.converter report.raw_value))
  ∧ (∀ attr : String, attr ≠ m.attribute_name →
      attrAt (handle_report device report) m.endpoint_id m.ep_attribute attr
        = c attr)
  ∧ (∀ (ep : Nat) (epa attr : String),
      ¬(ep = m.endpoint_id ∧ epa = m.ep_attribute) →
      attrAt (handle_report device report) ep epa attr
        = attrAt device ep epa attr) := by
  refine ⟨?_, ?_, ?_⟩
  · rw [attrAt_handle_target device report m c hm hc, if_pos rfl]
  · intro attr hattr
    rw [attrAt_handle_target device report m c hm hc, if_neg hattr]
  · intro ep epa attr hne
    exact attrAt_handle_frame device report m c hm hc ep epa attr hne

/-- C1 witness: the concrete door report (id 1, raw value 1) against the
freshly constructed device writes zone_status of endpoint 2 and leaves
zone_type there and the vibration endpoint's zone_status unchanged. -/
theorem C1_dispatch_writes_exactly_target_witness :
    attrAt (handle_report initialState ⟨DOOR_HANDLE_DP_ID, 1⟩)
        DOOR_HANDLE_EP_ID "ias_zone" "zone_status"
      = some (AttrValue.int 1)
  ∧ attrAt (handle_report initialState ⟨DOOR_HANDLE_DP_ID, 1⟩)
        DOOR_HANDLE_EP_ID "ias_zone" "zone_type"
      = some AttrValue.zoneTypeContactSwitch
  ∧ attrAt (handle_report initialState ⟨DOOR_HANDLE_DP_ID, 1⟩)
        VIBRATION_EP_ID "ias_zone" "zone_status"
      = some (AttrValue.int 0) := by
  have h := C1_dispatch_writes_exactly_target initialState
    ⟨DOOR_HANDLE_DP_ID, 1⟩
    ⟨DOOR_HANDLE_EP_ID, "ias_zone", "zone_status",
      fun x => Int.land Alarm_1 x⟩
    CustomTuyaContactSwitchCluster_init rfl rfl
  refine ⟨?_, ?_, ?_⟩
  · simpa [Alarm_1, int_land_one] using h.1
  · exact (h.2.1 "zone_type" (by decide)).trans (by decide)
  · exact (h.2.2 VIBRATION_EP_ID "ias_zone" "zone_status" (by decide)).trans
      (by decide)

/-- C2: dispatching a report whose id is none of the table's keys (1, 3, 10)
is a no-op: the device state, hence every attribute cache of every
synthesized cluster, is left exactly as it was, and no failure is produced
(dispatch is a total function into device states). -/
theorem C2_unknown_id_noop (device : DeviceState) (report : DataPointReport)
    (h1 : report.id ≠ DOOR_HANDLE_DP_ID)
    (h3 : report.id ≠ BATTERY_STATE_DP_ID)
    (h10 : report.id ≠ VIBRATION_DP_ID) :
    handle_report device report = device := by
  unfold handle_report
  rw [show data_point_handlers report.id = none from by
    unfold data_point_handlers
    simp [h1, h3, h10]]

/-- C2 witness: the unknown data-point id 5 leaves the freshly constructed
device untouched. -/
theorem C2_unknown_id_noop_witness :
    handle_report initialState ⟨5, 7⟩ = initialState :=
  C2_unknown_id_noop initialState ⟨5, 7⟩ (by decide) (by decide) (by decide)

/-- C3: for the battery data point (id 3) and every raw value r in [0, 100],
dispatch stores battery_percentage_remaining = 2*r on the PowerConfiguration
cluster of endpoint 1, and that value lies within [0, 200]. -/
theorem C3_battery_scaling (device : DeviceState) (c : AttrCache) (r : Int)
    (hc : device DP_HANDLER_EP_ID "power" = some c)
    (h0 : 0 ≤ r) (h100 : r ≤ 100) :
    attrAt (handle_report device ⟨BATTERY_STATE_DP_ID, r⟩)
        DP_HANDLER_EP_ID "power" "battery_percentage_remaining"
      = some (AttrValue.int (2 * r))
  ∧ 0 ≤ 2 * r ∧ 2 * r ≤ 200 := by
  refine ⟨?_, by omega, by omega⟩
  have h := attrAt_handle_target device ⟨BATTERY_STATE_DP_ID, r⟩
    ⟨DP_HANDLER_EP_ID, "power", "battery_percentage_remaining",
      fun x => 2 * x⟩
    c rfl hc "battery_percentage_remaining"
  simpa using h

/-- C3 witness: raw battery value 50 stores 100, inside [0, 200]. -/
theorem C3_battery_scaling_witness :
    attrAt (handle_report initialState ⟨BATTERY_STATE_DP_ID, 50⟩)
        DP_HANDLER_EP_ID "power" "battery_percentage_remaining"
      = some (AttrValue.int 100)
  ∧ (0 : Int) ≤ 100 ∧ (100 : Int) ≤ 200 := by
  have h := C3_battery_scaling initialState
    CustomTuyaPowerConfigurationCluster_init 50 rfl (by decide) (by decide)
  exact ⟨by simpa using h.1, by decide, by decide⟩

/-- C4: for the door (id 1) and vibration (id 10) data points and every
integer raw value, the stored zone_status is the bitwise AND of the raw
value with the single alarm-bit mask Alarm_1; a raw value 0 stores 0, and
any raw value with the alarm bit (bit 0) set stores exactly Alarm_1. -/
theorem C4_zone_status_mask (device : DeviceState) (c2 c3 : AttrCache)
    (r : Int)
    (hc2 : device DOOR_HANDLE_EP_ID "ias_zone" = some c2)
    (hc3 : device VIBRATION_EP_ID "ias_zone" = some c3) :
    attrAt (handle_report device ⟨DOOR_HANDLE_DP_ID, r⟩)
        DOOR_HANDLE_EP_ID "ias_zone" "zone_status"
      = some (AttrValue.int (Int.land Alarm_1 r))
  ∧ attrAt (handle_report device ⟨VIBRATION_DP_ID, r⟩)
        VIBRATION_EP_ID "ias_zone" "zone_status"
      = some (AttrValue.int (Int.land Alarm_1 r))
  ∧ (r = 0 → Int.land Alarm_1 r = 0)
  ∧ (r % 2 = 1 → Int.land Alarm_1 r = Alarm_1) := by
  refine ⟨?_, ?_, ?_, ?_⟩
  · have h := attrAt_handle_target device ⟨DOOR_HANDLE_DP_ID, r⟩
      ⟨DOOR_HANDLE_EP_ID, "ias_zone", "zone_status",
        fun x => Int.land Alarm_1 x⟩
      c2 rfl hc2 "zone_status"
    simpa using h
  · have h := attrAt_handle_target device ⟨VIBRATION_DP_ID, r⟩
      ⟨VIBRATION_EP_ID, "ias_zone", "zone_status",
        fun x => Int.land Alarm_1 x⟩
      c3 rfl hc3 "zone_status"
    simpa using h
  · intro h0
    rw [h0, show Alarm_1 = (1 : Int) from rfl, int_land_one]
    decide
  · intro hodd
    rw [show Alarm_1 = (1 : Int) from rfl, int_land_one]
    exact hodd

/-- C4 witness: raw value 1 (alarm bit set) stores exactly 1 on both the
door and vibration endpoints. -/
theorem C4_zone_status_mask_witness :
    attrAt (handle_report initialState ⟨DOOR_HANDLE_DP_ID, 1⟩)
        DOOR_HANDLE_EP_ID "ias_zone" "zone_status"
      = some (AttrValue.int 1)
  ∧ attrAt (handle_report initialState ⟨VIBRATION_DP_ID, 1⟩)
        VIBRATION_EP_ID "ias_zone" "zone_status"
      = some (AttrValue.int 1) := by
  have h := C4_zone_status_mask initialState
    CustomTuyaContactSwitchCluster_init CustomTuyaVibrationCluster_init 1
    rfl rfl
  have hv : Int.land Alarm_1 1 = 1 := h.2.2.2 (by decide)
  exact ⟨h.1.trans (by rw [hv]), h.2.1.trans (by rw [hv])⟩

/-- C5: after construction and before any report, the caches hold
battery_percentage_remaining = 200, battery_size = AAA, battery_quantity = 2
on the PowerConfiguration cluster, power_source = Battery on the Basic
clusters, zone_status = 0 on both IasZone clusters, zone_type =
Contact_Switch on the door cluster and zone_type = Vibration_Movement_Sensor
on the vibration cluster. -/
theorem C5_construction_defaults :
    attrAt initialState DP_HANDLER_EP_ID "power"
        "battery_percentage_remaining" = some (AttrValue.int 200)
  ∧ attrAt initialState DP_HANDLER_EP_ID "power" "battery_size"
      = some AttrValue.batterySizeAAA
  ∧ attrAt initialState DP_HANDLER_EP_ID "power" "battery_quantity"
      = some (AttrValue.int 2)
  ∧ attrAt initialState DP_HANDLER_EP_ID "basic" "power_source"
      = some AttrValue.powerSourceBattery
  ∧ attrAt initialState DOOR_HANDLE_EP_ID "basic" "power_source"
      = some AttrValue.powerSourceBattery
  ∧ attrAt initialState VIBRATION_EP_ID "basic" "power_source"
      = some AttrValue.powerSourceBattery
  ∧ attrAt initialState DOOR_HANDLE_EP_ID "ias_zone" "zone_status"
      = some (AttrValue.int 0)
  ∧ attrAt initialState VIBRATION_EP_ID "ias_zone" "zone_status"
      = some (AttrValue.int 0)
  ∧ attrAt initialState DOOR_HANDLE_EP_ID "ias_zone" "zone_type"
      = some AttrValue.zoneTypeContactSwitch
  ∧ attrAt initialState VIBRATION_EP_ID "ias_zone" "zone_type"
      = some AttrValue.zoneTypeVibrationMovementSensor := by
  decide

/-- C6: processing the door report (id 1, raw value 1) sets endpoint 2's
zone_status to 1 (bit 0 set), leaves endpoint 3's zone_status unchanged at
0, and changes no attribute of any cluster other than endpoint 2's IasZone
cluster. -/
theorem C6_door_report_end_to_end :
    attrAt (handle_report initialState ⟨DOOR_HANDLE_DP_ID, 1⟩)
        DOOR_HANDLE_EP_ID "ias_zone" "zone_status"
      = some (AttrValue.int 1)
  ∧ attrAt (handle_report initialState ⟨DOOR_HANDLE_DP_ID, 1⟩)
        VIBRATION_EP_ID "ias_zone" "zone_status"
      = some (AttrValue.int 0)
  ∧ attrAt initialState VIBRATION_EP_ID "ias_zone" "zone_status"
      = some (AttrValue.int 0)
  ∧ (∀ (ep : Nat) (epa attr : String),
      ¬(ep = DOOR_HANDLE_EP_ID ∧ epa = "ias_zone") →
      attrAt (handle_report initialState ⟨DOOR_HANDLE_DP_ID, 1⟩) ep epa attr
        = attrAt initialState ep epa attr) := by
  refine ⟨?_, ?_, by decide, ?_⟩
  · have h := attrAt_handle_target initialState ⟨DOOR_HANDLE_DP_ID, 1⟩
      ⟨DOOR_HANDLE_EP_ID, "ias_zone", "zone_status",
        fun x => Int.land Alarm_1 x⟩
      CustomTuyaContactSwitchCluster_init rfl rfl "zone_status"
    simpa [Alarm_1, int_land_one] using h
  · have h := attrAt_handle_frame initialState ⟨DOOR_HANDLE_DP_ID, 1⟩
      ⟨DOOR_HANDLE_EP_ID, "ias_zone", "zone_status",
        fun x => Int.land Alarm_1 x⟩
      CustomTuyaContactSwitchCluster_init rfl rfl
      VIBRATION_EP_ID "ias_zone" "zone_status" (by decide)
    exact h.trans (by decide)
  · intro ep epa attr hne
    exact attrAt_handle_frame initialState ⟨DOOR_HANDLE_DP_ID, 1⟩
      ⟨DOOR_HANDLE_EP_ID, "ias_zone", "zone_status",
        fun x => Int.land Alarm_1 x⟩
      CustomTuyaContactSwitchCluster_init rfl rfl ep epa attr hne

/-- C6 witness: the battery attribute on endpoint 1 is untouched by the door
report. -/
theorem C6_door_report_end_to_end_witness :
    attrAt (handle_report initialState ⟨DOOR_HANDLE_DP_ID, 1⟩)
        DP_HANDLER_EP_ID "power" "battery_percentage_remaining"
      = attrAt initialState DP_HANDLER_EP_ID "power"
          "battery_percentage_remaining" :=
  C6_door_report_end_to_end.2.2.2 DP_HANDLER_EP_ID "power"
    "battery_percentage_remaining" (by decide)

/-- C7: in the replacement topology the three synthesized endpoints share no
cluster instance (instances are identified by (endpoint id, cluster id),
since the host instantiates one cluster object per endpoint), each endpoint
carries at most one instance of any given cluster type (its input and output
cluster-id lists have no duplicates), and endpoints 2 and 3 each carry
exactly one IasZone instance. -/
theorem C7_topology_invariants :
    (instancesOf replacement_endpoint1).inter
        (instancesOf replacement_endpoint2) = []
  ∧ (instancesOf replacement_endpoint1).inter
        (instancesOf replacement_endpoint3) = []
  ∧ (instancesOf replacement_endpoint2).inter
        (instancesOf replacement_endpoint3) = []
  ∧ replacement_endpoint1.input_clusters.Nodup
  ∧ replacement_endpoint2.input_clusters.Nodup
  ∧ replacement_endpoint3.input_clusters.Nodup
  ∧ replacement_endpoint1.output_clusters.Nodup
  ∧ replacement_endpoint2.output_clusters.Nodup
  ∧ replacement_endpoint3.output_clusters.Nodup
  ∧ replacement_endpoint2.input_clusters.count IasZone_cluster_id = 1
  ∧ replacement_endpoint3.input_clusters.count IasZone_cluster_id = 1 := by
  decide

/-- C8: every converter of the data-point table is a pure, total,
deterministic function on integers: each table entry's converter has exactly
one output for every integer input, the two zone-status entries are
extensionally the AND with Alarm_1, and the battery entry is extensionally
the scaling by 2, so each depends on nothing but its argument. -/
theorem C8_converters_total (dp : Nat) (m : DPToAttributeMapping)
    (hm : dp_to_attribute dp = some m) :
    (∀ x : Int, ∃! y : Int, m.converter x = y)
  ∧ (dp = DOOR_HANDLE_DP_ID ∨ dp = VIBRATION_DP_ID →
      ∀ x : Int, m.converter x = Int.land Alarm_1 x)
  ∧ (dp = BATTERY_STATE_DP_ID → ∀ x : Int, m.converter x = 2 * x) := by
  have hpure : ∀ x : Int, ∃! y : Int, m.converter x = y :=
    fun x => ⟨m.converter x, rfl, fun y hy => hy.symm⟩
  unfold dp_to_attribute at hm
  by_cases h1 : dp = DOOR_HANDLE_DP_ID
  · rw [if_pos h1] at hm
    cases hm
    exact ⟨hpure, fun _ x => rfl,
      fun h3 => absurd (h1.symm.trans h3) (by decide)⟩
  · rw [if_neg h1] at hm
    by_cases h2 : dp = VIBRATION_DP_ID
    · rw [if_pos h2] at hm
      cases hm
      exact ⟨hpure, fun _ x => rfl,
        fun h3 => absurd (h2.symm.trans h3) (by decide)⟩
    · rw [if_neg h2] at hm
      by_cases h3 : dp = BATTERY_STATE_DP_ID
      · rw [if_pos h3] at hm
        cases hm
        refine ⟨hpure, fun hd x => ?_, fun _ x => rfl⟩
        rcases hd with hd | hd
        · exact absurd (h3.symm.trans hd) (by decide)
        · exact absurd (h3.symm.trans hd) (by decide)
      · rw [if_neg h3] at hm
        cases hm

/-- C8 witness: the battery entry's converter maps 21 to 42. -/
theorem C8_converters_total_witness :
    (⟨DP_HANDLER_EP_ID, "power", "battery_percentage_remaining",
      fun x => 2 * x⟩ : DPToAttributeMapping).converter 21 = 42 := by
  have h := C8_converters_total BATTERY_STATE_DP_ID
    ⟨DP_HANDLER_EP_ID, "power", "battery_percentage_remaining",
      fun x => 2 * x⟩ rfl
  exact (h.2.2 rfl 21).trans (by norm_num)

/-- C9: both IasZone cluster constructors also seed the zone_state attribute
with the ZONE_STATE constant at construction, before any report is
processed. -/
theorem C9_zone_state_initialized :
    attrAt initialState DOOR_HANDLE_EP_ID "ias_zone" "zone_state"
      = some AttrValue.zoneStateDefault
  ∧ attrAt initialState VIBRATION_EP_ID "ias_zone" "zone_state"
      = some AttrValue.zoneStateDefault := by
  decide

/-- C10: the battery converter does not clamp its result: for every raw
value r above 100 the stored battery_percentage_remaining is 2*r, which
exceeds 200, the top of the ZCL attribute's 0-200 range. -/
theorem C10_battery_not_clamped (device : DeviceState) (c : AttrCache)
    (r : Int) (hc : device DP_HANDLER_EP_ID "power" = some c)
    (h100 : 100 < r) :
    attrAt (handle_report device ⟨BATTERY_STATE_DP_ID, r⟩)
        DP_HANDLER_EP_ID "power" "battery_percentage_remaining"
      = some (AttrValue.int (2 * r))
  ∧ 200 < 2 * r := by
  refine ⟨?_, by omega⟩
  have h := attrAt_handle_target device ⟨BATTERY_STATE_DP_ID, r⟩
    ⟨DP_HANDLER_EP_ID, "power", "battery_percentage_remaining",
      fun x => 2 * x⟩
    c rfl hc "battery_percentage_remaining"
  simpa using h

/-- C10 witness: raw battery value 101 stores 202, beyond the 0-200 range. -/
theorem C10_battery_not_clamped_witness :
    attrAt (handle_report initialState ⟨BATTERY_STATE_DP_ID, 101⟩)
        DP_HANDLER_EP_ID "power" "battery_percentage_remaining"
      = some (AttrValue.int 202)
  ∧ (200 : Int) < 202 := by
  have h := C10_battery_not_clamped initialState
    CustomTuyaPowerConfigurationCluster_init 101 rfl (by decide)
  exact ⟨by simpa using h.1, by decide⟩
